import Mathlib

/-!
Verification of the `applepye` interpreter bridge (src/applepye.c, src/applepye.h).

The bridge embeds a Python interpreter. `applepye_execute` installs the source
under the global name `__APPLEPYE_CODE__` and runs a fixed wrapper script via
`PyRun_SimpleString`. The wrapper redirects `sys.stdout` / `sys.stderr` into a
fresh `io.StringIO`, tries `eval` of the source, falls back to `exec` on an
`Exception`, prints a traceback on an `Exception` from `exec`, stores the
captured text in the global `result`, and restores the streams. The C side then
duplicates `result` (or "" when absent or not a string) and deletes the
temporary globals `__APPLEPYE_CODE__` and `result`.

The embedding below models the interpreter state explicitly (the `__main__`
dict, the current `sys.stdout` / `sys.stderr` values, the live `StringIO`
buffers). The semantics of the user-supplied source under Python `eval` / `exec`
is external to this repository, so it is abstracted as a `PyOracle`: a pair of
functions giving, for a source string and an interpreter state, either a value
(resp. unit) and a successor state, or a raised fault tagged with whether it is
a subclass of `Exception` (the only class the wrapper catches) together with
its traceback text; `SystemExit` is kept apart because `PyErr_Print` handles
it by terminating the process. The wrapper script itself is transliterated
statement by statement from the string literal in `applepye_execute`,
including the dependence of its restore lines on the global name `sys`, and
`PyRun_SimpleString` failure is modelled after `PyErr_Print`: `Py_Exit` for a
pending `SystemExit` (the call never returns), a traceback rendered to the
current — possibly still redirected — `sys.stderr` otherwise.
-/

set_option autoImplicit false

namespace Applepye

/-- An output channel: the real process stdout / stderr, or an in-memory
`io.StringIO` object identified by an allocation index. -/
inductive Chan where
  | realOut
  | realErr
  | sio (id : Nat)
deriving DecidableEq, Repr

/-- Python values, as far as the bridge can observe them.  `noneVal` is the
`None` object; `chan` is a file-like object (a saved `sys.stdout` value or a
`StringIO`); `module` and `func` cover the wrapper's own helper bindings;
`obj` is any other object, carrying its `str()` rendering. -/
inductive PyVal where
  | noneVal
  | int (n : Int)
  | str (s : String)
  | chan (c : Chan)
  | module (m : String)
  | func (f : String)
  | obj (r : String)
deriving DecidableEq, Repr

/-- `str(v)`: the textual representation used by `print`. -/
def PyVal.text : PyVal → String
  | .noneVal => "None"
  | .int n => toString n
  | .str s => s
  | .chan _ => "<file>"
  | .module m => "<module " ++ m ++ ">"
  | .func f => "<function " ++ f ++ ">"
  | .obj r => r

/-- State of the embedded interpreter: lifecycle flags, the `__main__` dict
(an association list, first match wins), the current `sys.stdout` and
`sys.stderr` values, the contents of live `StringIO` objects, and the text
that reached the real process channels. -/
structure PyState where
  initialized : Bool
  initCount : Nat
  finalCount : Nat
  globals : List (String × PyVal)
  sysStdout : PyVal
  sysStderr : PyVal
  sios : List (Nat × String)
  nextSio : Nat
  realOut : String
  realErr : String
  /-- Set when `Py_Exit` has terminated the host process (see `runWrapper`):
  states carrying this flag describe the moment of process death; no further
  C code runs on them and no value is delivered to the caller. -/
  procExited : Bool
deriving DecidableEq, Repr

/-- Dict lookup (`PyDict_GetItemString` / name lookup): first match. -/
def nsGet : List (String × PyVal) → String → Option PyVal
  | [], _ => Option.none
  | (k, v) :: rest, k' => if k = k' then some v else nsGet rest k'

/-- Dict store (`PyDict_SetItemString` / assignment): replace the first match,
append when absent. -/
def nsSet : List (String × PyVal) → String → PyVal → List (String × PyVal)
  | [], k, v => [(k, v)]
  | (k0, v0) :: rest, k, v =>
    if k0 = k then (k, v) :: rest else (k0, v0) :: nsSet rest k v

/-- Dict delete (`PyDict_DelItemString` / `del`): drop every match; deleting
an absent key leaves the dict unchanged (the C code ignores the error). -/
def nsDel : List (String × PyVal) → String → List (String × PyVal)
  | [], _ => []
  | (k0, v0) :: rest, k =>
    if k0 = k then nsDel rest k else (k0, v0) :: nsDel rest k

/-- `getvalue` data: contents of the StringIO with the given id. -/
def sioLookup : List (Nat × String) → Nat → Option String
  | [], _ => Option.none
  | (i, c) :: rest, j => if i = j then some c else sioLookup rest j

/-- Append text to the StringIO with the given id. -/
def sioWrite : List (Nat × String) → Nat → String → List (Nat × String)
  | [], _, _ => []
  | (i, c) :: rest, j, t =>
    if i = j then (i, c ++ t) :: rest else (i, c) :: sioWrite rest j t

/-- Writing text through a file-like value (`print`, `traceback.print_exc`).
Returns `none` when the target is not a file-like object, in which case the
write raises (an `Exception`). -/
def writeVal (s : PyState) (target : PyVal) (t : String) : Option PyState :=
  match target with
  | .chan .realOut => some { s with realOut := s.realOut ++ t }
  | .chan .realErr => some { s with realErr := s.realErr ++ t }
  | .chan (.sio i) => some { s with sios := sioWrite s.sios i t }
  | _ => Option.none

/-- Outcome of running a piece of user code: normal completion with a result
and a successor state, or a raised fault.  `isExc` records whether the fault
is a subclass of `Exception` — the wrapper's `except Exception:` clauses catch
exactly those; `BaseException`-only faults (`KeyboardInterrupt` and friends)
propagate.  `SystemExit` gets its own constructor because `PyErr_Print`
treats it specially (it terminates the process, see `runWrapper`); it is not
an `Exception` subclass either, so the wrapper never catches it.  `tb` is the
traceback text that `traceback.print_exc()` would render for the fault. -/
inductive Outcome (α : Type) where
  | ok (v : α) (s : PyState)
  | exn (isExc : Bool) (tb : String) (s : PyState)
  | sysExit (tb : String) (s : PyState)
deriving DecidableEq, Repr

/-- The state an outcome leaves the interpreter in. -/
def outcomeState : Outcome Unit → PyState
  | .ok _ s => s
  | .exn _ _ s => s
  | .sysExit _ s => s

/-- The semantics of Python `eval(code, globals())` and `exec(code, globals())`
on arbitrary user source: external to this repository, abstracted as an
oracle.  Both act on the full interpreter state (they may write output,
rebind `sys.stdout`, and mutate the globals dict). -/
structure PyOracle where
  eval : String → PyState → Outcome PyVal
  exec : String → PyState → Outcome Unit

/-- The inner `try: exec(code, globals()) / except Exception: print_exc()`
block of `_applepye_run`.  An `Exception` from `exec` is rendered to the
current `sys.stderr`; a fault while rendering, or a non-`Exception` fault,
propagates. -/
def execFallback (O : PyOracle) (code : String) (s : PyState) : Outcome Unit :=
  match O.exec code s with
  | .ok _ s' => .ok () s'
  | .exn true tb s' =>
    match writeVal s' s'.sysStderr tb with
    | some s'' => .ok () s''
    | Option.none => .exn true tb s'
  | .exn false tb s' => .exn false tb s'
  | .sysExit tb s' => .sysExit tb s'

/-- `_applepye_run(code)` from the wrapper: try `eval`; print a non-`None`
value to the current `sys.stdout`; on an `Exception` anywhere in the try body
(from `eval` or from the `print`), fall back to `exec` of the same source. -/
def applepyeRun (O : PyOracle) (code : String) (s : PyState) : Outcome Unit :=
  match O.eval code s with
  | .ok v s' =>
    if v = PyVal.noneVal then .ok () s'
    else
      match writeVal s' s'.sysStdout (v.text ++ "\n") with
      | some s'' => .ok () s''
      | Option.none => execFallback O code s'
  | .exn true _ s' => execFallback O code s'
  | .exn false tb s' => .exn false tb s'
  | .sysExit tb s' => .sysExit tb s'

/-- The wrapper prologue: `import sys, io`, save the current streams under
`_applepye_old_stdout` / `_applepye_old_stderr`, allocate a fresh `StringIO`
bound to `_applepye_buf`, redirect both streams into it, and define
`_applepye_run`.  All these assignments land in the shared `__main__` dict. -/
def prologue (s : PyState) : PyState :=
  { s with
    globals :=
      nsSet (nsSet (nsSet (nsSet (nsSet (nsSet s.globals
        "sys" (PyVal.module "sys"))
        "io" (PyVal.module "io"))
        "_applepye_old_stdout" s.sysStdout)
        "_applepye_old_stderr" s.sysStderr)
        "_applepye_buf" (PyVal.chan (Chan.sio s.nextSio)))
        "_applepye_run" (PyVal.func "_applepye_run"),
    sysStdout := PyVal.chan (Chan.sio s.nextSio),
    sysStderr := PyVal.chan (Chan.sio s.nextSio),
    sios := (s.nextSio, "") :: s.sios,
    nextSio := s.nextSio + 1 }

/-- `_applepye_run(__APPLEPYE_CODE__)` applied to whatever value that name
holds.  Through the C entry point it is always a string; on any other value
both `eval` and `exec` raise `TypeError` (an `Exception`), so the fallback
chain ends with a traceback on the current `sys.stderr`. -/
def runOnVal (O : PyOracle) (v : PyVal) (s : PyState) : Outcome Unit :=
  match v with
  | .str code => applepyeRun O code s
  | _ =>
    match writeVal s s.sysStderr "TypeError: exec arg must be a string\n" with
    | some s' => .ok () s'
    | Option.none => .exn true "TypeError" s

/-- The assignment `sys.stdout = v` (resp. `sys.stderr = v`) from the wrapper
epilogue.  It goes through the global name `sys`: if `sys` is unbound the
line raises `NameError`; only when `sys` still names the real `sys` module
does the assignment change the interpreter's actual stream; if the script
rebound `sys` to some other attribute-accepting object (another module, a
file-like object, a function, a plain object) the setattr succeeds but the
real stream is untouched; value-like objects (`int`, `str`, `None`) reject
attribute assignment with an `Exception`. -/
def setSysAttr (s : PyState) (isStdout : Bool) (v : PyVal) : Outcome Unit :=
  match nsGet s.globals "sys" with
  | some (PyVal.module "sys") =>
    if isStdout then Outcome.ok () { s with sysStdout := v }
    else Outcome.ok () { s with sysStderr := v }
  | some (PyVal.module _) => Outcome.ok () s
  | some (PyVal.chan _) => Outcome.ok () s
  | some (PyVal.func _) => Outcome.ok () s
  | some (PyVal.obj _) => Outcome.ok () s
  | some _ => Outcome.exn true "AttributeError: attribute assignment rejected" s
  | Option.none => Outcome.exn true "NameError: name sys is not defined" s

/-- The last two wrapper lines, `sys.stdout = _applepye_old_stdout` and
`sys.stderr = _applepye_old_stderr`: each looks up the saved binding (a
`NameError` if the script unbound it) and assigns through the global name
`sys` (see `setSysAttr`); a fault in the first line skips the second. -/
def restoreStreams (s8 : PyState) : Outcome Unit :=
  match nsGet s8.globals "_applepye_old_stdout" with
  | some v =>
    match setSysAttr s8 true v with
    | Outcome.ok _ s9 =>
      match nsGet s9.globals "_applepye_old_stderr" with
      | some w => setSysAttr s9 false w
      | Option.none =>
        Outcome.exn true "NameError: name _applepye_old_stderr is not defined" s9
    | e => e
  | Option.none =>
    Outcome.exn true "NameError: name _applepye_old_stdout is not defined" s8

/-- The wrapper epilogue: `result = _applepye_buf.getvalue()` (a `NameError`
or `AttributeError` if the script unbound or rebound `_applepye_buf`), then
the two stream-restore lines.  A fault in any line raises an uncaught
`Exception` at wrapper top level and the remaining lines never run. -/
def wrapperEpilogue (s7 : PyState) : Outcome Unit :=
  match nsGet s7.globals "_applepye_buf" with
  | some (PyVal.chan (Chan.sio i)) =>
    restoreStreams { s7 with
      globals := nsSet s7.globals "result"
        (PyVal.str ((sioLookup s7.sios i).getD "")) }
  | some _ => Outcome.exn true "AttributeError: getvalue" s7
  | Option.none => Outcome.exn true "NameError: name _applepye_buf is not defined" s7

/-- The complete wrapper script as one Python program: prologue, the
`_applepye_run(__APPLEPYE_CODE__)` call, epilogue.  A fault propagating out
of `_applepye_run` skips the epilogue; a fault inside the epilogue skips its
remaining lines. -/
def wrapperBody (O : PyOracle) (s1 : PyState) : Outcome Unit :=
  let s6 := prologue s1
  match nsGet s6.globals "__APPLEPYE_CODE__" with
  | some v =>
    match runOnVal O v s6 with
    | Outcome.ok _ s7 => wrapperEpilogue s7
    | e => e
  | Option.none =>
    Outcome.exn true "NameError: name __APPLEPYE_CODE__ is not defined" s6

/-- How `PyRun_SimpleString` ended: clean return 0, return -1 after
`PyErr_Print`, or no return at all because `PyErr_Print` called `Py_Exit`. -/
inductive RunStatus where
  | ok
  | failed
  | exited
deriving DecidableEq, Repr

/-- One `PyRun_SimpleString(wrapper)` call.  On an uncaught fault it calls
`PyErr_Print`: for a pending `SystemExit` that means `handle_system_exit` /
`Py_Exit` — the host process terminates and the call never returns (marked by
`RunStatus.exited` and the `procExited` flag); for any other uncaught fault
the traceback is rendered to the current `sys.stderr` — still the call's
`StringIO` when the restore lines did not run — and -1 is returned. -/
def runWrapper (O : PyOracle) (s1 : PyState) : RunStatus × PyState :=
  match wrapperBody O s1 with
  | Outcome.ok _ s => (RunStatus.ok, s)
  | Outcome.exn _ tb s => (RunStatus.failed, (writeVal s s.sysStderr tb).getD s)
  | Outcome.sysExit _ s => (RunStatus.exited, { s with procExited := true })

/-- `_dup_str` from applepye.c: a null argument is treated as ""; a `malloc`
failure yields NULL (modelled by the `allocOk` flag). -/
def dup_str (allocOk : Bool) (s : Option String) : Option String :=
  if allocOk then some (s.getD "") else Option.none

/-- Fallibility flags for the C-level steps of one `applepye_execute` call:
`allocOk` — `malloc` in `_dup_str`; `unicodeOk` — `PyUnicode_FromString`;
`setItemOk` — `PyDict_SetItemString`; `utf8Ok` — `PyUnicode_AsUTF8`. -/
structure CConfig where
  allocOk : Bool
  unicodeOk : Bool
  setItemOk : Bool
  utf8Ok : Bool
deriving DecidableEq, Repr

/-- The all-steps-succeed configuration. -/
def cfgOk : CConfig :=
  { allocOk := true, unicodeOk := true, setItemOk := true, utf8Ok := true }

/-- Installing the source under `__APPLEPYE_CODE__` in the `__main__` dict. -/
def bindCode (s : PyState) (code : String) : PyState :=
  { s with globals := nsSet s.globals "__APPLEPYE_CODE__" (PyVal.str code) }

/-- `applepye_execute` from applepye.c.  A null source returns `_dup_str("")`
at once.  Otherwise: build the code string (may fail), bind it under
`__APPLEPYE_CODE__` (may fail), run the wrapper (its status ignored),
duplicate the global `result` when it exists and is a string (else ""), and
delete the temporaries `__APPLEPYE_CODE__` and `result`.  The returned
`Option String` is the C `char*` (`none` = NULL).  When `PyRun_SimpleString`
exits the process (`RunStatus.exited`), none of the remaining C lines run and
the call never returns; the pair for that branch merely records the state at
process death (flagged `procExited`) — its first component is never delivered
to any caller. -/
def applepye_execute (O : PyOracle) (cfg : CConfig) (code_c : Option String)
    (s : PyState) : Option String × PyState :=
  match code_c with
  | Option.none => (dup_str cfg.allocOk (some ""), s)
  | some code =>
    if cfg.unicodeOk = false then
      (dup_str cfg.allocOk (some "/* failed to create Python code string */"), s)
    else if cfg.setItemOk = false then
      (dup_str cfg.allocOk (some "/* failed to set __APPLEPYE_CODE__ */"), s)
    else
      let r := runWrapper O (bindCode s code)
      if r.1 = RunStatus.exited then (Option.none, r.2)
      else
        let out : Option String :=
          match nsGet r.2.globals "result" with
          | some (PyVal.str r0) => dup_str cfg.allocOk (some (if cfg.utf8Ok then r0 else ""))
          | _ => dup_str cfg.allocOk (some "")
        (out, { r.2 with globals := nsDel (nsDel r.2.globals "__APPLEPYE_CODE__") "result" })

/-- `applepye_initialize` from applepye.c: guarded by `Py_IsInitialized`;
`Py_Initialize` brings up a fresh interpreter (empty `__main__`, real
streams); repeated calls are no-ops.  (The GIL handshake has no observable
effect in this single-threaded model.) -/
def applepye_initialize (s : PyState) : PyState :=
  if s.initialized = false then
    { s with
      initialized := true,
      initCount := s.initCount + 1,
      globals := [],
      sysStdout := PyVal.chan Chan.realOut,
      sysStderr := PyVal.chan Chan.realErr,
      sios := [],
      nextSio := 0 }
  else s

/-- `applepye_finalize` from applepye.c: guarded by `Py_IsInitialized`;
`Py_Finalize` tears the interpreter state down; a call on an uninitialized
interpreter is a no-op. -/
def applepye_finalize (s : PyState) : PyState :=
  if s.initialized = true then
    { s with
      initialized := false,
      finalCount := s.finalCount + 1,
      globals := [],
      sysStdout := PyVal.chan Chan.realOut,
      sysStderr := PyVal.chan Chan.realErr,
      sios := [],
      nextSio := 0 }
  else s

/-- A freshly initialized interpreter state. -/
def initState : PyState :=
  { initialized := true, initCount := 1, finalCount := 0, globals := [],
    sysStdout := PyVal.chan Chan.realOut, sysStderr := PyVal.chan Chan.realErr,
    sios := [], nextSio := 0, realOut := "", realErr := "", procExited := false }

/-- The interpreter state after `_applepye_run` has returned or raised, on the
successful C path for source `code` started from state `s`. -/
def postRunState (O : PyOracle) (code : String) (s : PyState) : PyState :=
  outcomeState (applepyeRun O code (prologue (bindCode s code)))

/-!
Concrete oracles used as witnesses and counterexamples.  Each one fixes the
behaviour of `eval` / `exec` on the one source string it is used with, in the
way the real Python interpreter behaves on that string.
-/

/-- Any statement that is not an expression: `eval` raises `SyntaxError` (an
`Exception`), `exec` completes with no effect (e.g. `pass`, or ""). -/
def syntaxErrOracle : PyOracle where
  eval := fun _ s => Outcome.exn true "SyntaxError: invalid syntax" s
  exec := fun _ s => Outcome.ok () s

/-- `raise SystemExit`: `eval` raises `SyntaxError` (caught), the `exec`
fallback raises `SystemExit`, which subclasses `BaseException` but not
`Exception`, so the wrapper does not catch it and `PyErr_Print` terminates
the process. -/
def sysExitOracle : PyOracle where
  eval := fun _ s => Outcome.exn true "SyntaxError: invalid syntax" s
  exec := fun _ s => Outcome.sysExit "SystemExit" s

/-- A source interrupted in `eval` by `KeyboardInterrupt` (not an
`Exception`); its `exec`, were it ever run, would bind the global `ran`. -/
def kbdOracle : PyOracle where
  eval := fun _ s => Outcome.exn false "KeyboardInterrupt" s
  exec := fun _ s => Outcome.ok () { s with globals := nsSet s.globals "ran" (PyVal.int 1) }

/-- `print(1) or 2`: a valid expression whose evaluation writes `1\n` to the
current `sys.stdout` and then yields the value `2`. -/
def printingOracle : PyOracle where
  eval := fun _ s =>
    match writeVal s s.sysStdout "1\n" with
    | some s' => Outcome.ok (PyVal.int 2) s'
    | Option.none => Outcome.exn true "OSError" s
  exec := fun _ s => Outcome.ok () s

/-- `del sys`: a statement (so `eval` raises `SyntaxError`) whose execution
unbinds the global name `sys`. -/
def delSysOracle : PyOracle where
  eval := fun _ s => Outcome.exn true "SyntaxError: invalid syntax" s
  exec := fun _ s => Outcome.ok () { s with globals := nsDel s.globals "sys" }

/-- Python behaviour on the two sources `x = 5` (a statement: `eval` raises
`SyntaxError`, `exec` binds `x`) and `x + 1` (an expression: with `x` bound
to 5 it evaluates to 6 with no side effect, otherwise `NameError`). -/
def xOracle : PyOracle where
  eval := fun code s =>
    if code = "x + 1" then
      match nsGet s.globals "x" with
      | some (PyVal.int n) => Outcome.ok (PyVal.int (n + 1)) s
      | _ => Outcome.exn true "NameError: name x is not defined" s
    else Outcome.exn true "SyntaxError: invalid syntax" s
  exec := fun code s =>
    if code = "x = 5" then Outcome.ok () { s with globals := nsSet s.globals "x" (PyVal.int 5) }
    else Outcome.exn true "SyntaxError: invalid syntax" s

/-- `3 + 4`: a pure expression evaluating to 7. -/
def sevenOracle : PyOracle where
  eval := fun _ s => Outcome.ok (PyVal.int 7) s
  exec := fun _ s => Outcome.ok () s

/-- `qqq`, an undefined name: both `eval` and `exec` raise `NameError` (an
`Exception`); the traceback text is what `traceback.print_exc` renders. -/
def nameErrOracle : PyOracle where
  eval := fun _ s => Outcome.exn true "NameError: name qqq is not defined" s
  exec := fun _ s =>
    Outcome.exn true
      "Traceback (most recent call last):\n  File <string>, line 1, in <module>\nNameError: name qqq is not defined\n" s

/-- The interpreter state left by `applepye_execute` on the source `x = 5`
from the fresh state: the wrapper helpers and the binding `x = 5` remain in
the shared namespace, the streams are restored, the temporaries are gone. -/
def c6MidState : PyState :=
  { initialized := true,
    initCount := 1,
    finalCount := 0,
    globals := [("sys", PyVal.module "sys"),
                ("io", PyVal.module "io"),
                ("_applepye_old_stdout", PyVal.chan Chan.realOut),
                ("_applepye_old_stderr", PyVal.chan Chan.realErr),
                ("_applepye_buf", PyVal.chan (Chan.sio 0)),
                ("_applepye_run", PyVal.func "_applepye_run"),
                ("x", PyVal.int 5)],
    sysStdout := PyVal.chan Chan.realOut,
    sysStderr := PyVal.chan Chan.realErr,
    sios := [(0, "")],
    nextSio := 1,
    realOut := "",
    realErr := "",
    procExited := false }

theorem nsGet_set_self (g : List (String × PyVal)) (k : String) (v : PyVal) :
    nsGet (nsSet g k v) k = some v := by
  induction g with
  | nil => simp [nsSet, nsGet]
  | cons kv rest ih =>
    by_cases h : kv.1 = k
    · simp [nsSet, nsGet, h]
    · simp [nsSet, nsGet, h, ih]

theorem nsGet_set_ne (g : List (String × PyVal)) (k k' : String) (v : PyVal)
    (h : k ≠ k') : nsGet (nsSet g k v) k' = nsGet g k' := by
  induction g with
  | nil => simp [nsSet, nsGet, h]
  | cons kv rest ih =>
    by_cases h0 : kv.1 = k
    · simp [nsSet, nsGet, h0, h]
    · simp [nsSet, nsGet, h0, ih]

theorem nsGet_del_self (g : List (String × PyVal)) (k : String) :
    nsGet (nsDel g k) k = Option.none := by
  induction g with
  | nil => simp [nsDel, nsGet]
  | cons kv rest ih =>
    by_cases h : kv.1 = k
    · simp [nsDel, h, ih]
    · simp [nsDel, nsGet, h, ih]

theorem nsGet_del_ne (g : List (String × PyVal)) (k k' : String)
    (h : k ≠ k') : nsGet (nsDel g k) k' = nsGet g k' := by
  induction g with
  | nil => simp [nsDel]
  | cons kv rest ih =>
    by_cases h0 : kv.1 = k
    · have h1 : kv.1 ≠ k' := by rw [h0]; exact h
      simp [nsDel, nsGet, h0, h1, h, ih]
    · simp [nsDel, nsGet, h0, ih]

theorem sioLookup_write_self (l : List (Nat × String)) (i : Nat) (t c : String)
    (h : sioLookup l i = some c) :
    sioLookup (sioWrite l i t) i = some (c ++ t) := by
  induction l with
  | nil => simp [sioLookup] at h
  | cons ic rest ih =>
    by_cases h0 : ic.1 = i
    · simp [sioLookup, h0] at h
      simp [sioWrite, sioLookup, h0, h]
    · simp [sioLookup, h0] at h
      simp [sioWrite, sioLookup, h0, ih h]

theorem str_append_ne_empty_right (c tb : String) (h : tb ≠ "") : c ++ tb ≠ "" := by
  intro he
  apply h
  have hl := congrArg String.length he
  simp [String.length_append] at hl
  have h0 : tb.length = 0 := by omega
  cases tb with
  | mk data =>
    cases data with
    | nil => rfl
    | cons a l => simp [String.length] at h0

theorem nsGet_prologue_code (s : PyState) (code : String) :
    nsGet (prologue (bindCode s code)).globals "__APPLEPYE_CODE__"
      = some (PyVal.str code) := by
  simp only [prologue, bindCode]
  rw [nsGet_set_ne _ _ _ _ (by decide), nsGet_set_ne _ _ _ _ (by decide),
    nsGet_set_ne _ _ _ _ (by decide), nsGet_set_ne _ _ _ _ (by decide),
    nsGet_set_ne _ _ _ _ (by decide), nsGet_set_ne _ _ _ _ (by decide),
    nsGet_set_self]

theorem nsGet_prologue_buf (s : PyState) :
    nsGet (prologue s).globals "_applepye_buf"
      = some (PyVal.chan (Chan.sio s.nextSio)) := by
  simp only [prologue]
  rw [nsGet_set_ne _ _ _ _ (by decide), nsGet_set_self]

theorem nsGet_prologue_old_stdout (s : PyState) :
    nsGet (prologue s).globals "_applepye_old_stdout" = some s.sysStdout := by
  simp only [prologue]
  rw [nsGet_set_ne _ _ _ _ (by decide), nsGet_set_ne _ _ _ _ (by decide),
    nsGet_set_ne _ _ _ _ (by decide), nsGet_set_self]

theorem nsGet_prologue_old_stderr (s : PyState) :
    nsGet (prologue s).globals "_applepye_old_stderr" = some s.sysStderr := by
  simp only [prologue]
  rw [nsGet_set_ne _ _ _ _ (by decide), nsGet_set_ne _ _ _ _ (by decide),
    nsGet_set_self]

theorem writeVal_getD_globals (s : PyState) (t : PyVal) (txt : String) :
    ((writeVal s t txt).getD s).globals = s.globals := by
  cases t with
  | chan c => cases c <;> rfl
  | noneVal => rfl
  | int n => rfl
  | str u => rfl
  | module m => rfl
  | func f => rfl
  | obj r => rfl

theorem setSysAttr_globals (s : PyState) (b : Bool) (v : PyVal) :
    (outcomeState (setSysAttr s b v)).globals = s.globals := by
  unfold setSysAttr
  split
  · split <;> rfl
  all_goals rfl

theorem setSysAttr_no_sysExit (s : PyState) (b : Bool) (v : PyVal)
    (tb : String) (u : PyState) : setSysAttr s b v ≠ Outcome.sysExit tb u := by
  unfold setSysAttr
  split
  · split <;> simp
  all_goals simp

theorem restoreStreams_globals (s8 : PyState) :
    (outcomeState (restoreStreams s8)).globals = s8.globals := by
  unfold restoreStreams
  cases hv : nsGet s8.globals "_applepye_old_stdout" with
  | none => rfl
  | some v =>
    dsimp only
    cases ha : setSysAttr s8 true v with
    | ok u0 s9 =>
      have h9 : s9.globals = s8.globals := by
        have h0 := setSysAttr_globals s8 true v
        rw [ha] at h0
        exact h0
      dsimp only
      cases hw : nsGet s9.globals "_applepye_old_stderr" with
      | none => simpa [outcomeState] using h9
      | some w =>
        dsimp only
        rw [setSysAttr_globals s9 false w, h9]
    | exn b tb0 s9 =>
      have h0 := setSysAttr_globals s8 true v
      rw [ha] at h0
      simpa [outcomeState] using h0
    | sysExit tb0 s9 =>
      have h0 := setSysAttr_globals s8 true v
      rw [ha] at h0
      simpa [outcomeState] using h0

theorem restoreStreams_no_sysExit (s8 : PyState) (tb : String) (u : PyState) :
    restoreStreams s8 ≠ Outcome.sysExit tb u := by
  unfold restoreStreams
  cases hv : nsGet s8.globals "_applepye_old_stdout" with
  | none => simp
  | some v =>
    dsimp only
    cases ha : setSysAttr s8 true v with
    | ok u0 s9 =>
      dsimp only
      cases hw : nsGet s9.globals "_applepye_old_stderr" with
      | none => simp
      | some w =>
        dsimp only
        exact setSysAttr_no_sysExit _ _ _ _ _
    | exn b tb0 s9 => simp
    | sysExit tb0 s9 => exact absurd ha (setSysAttr_no_sysExit _ _ _ _ _)

theorem wrapperEpilogue_no_sysExit (s7 : PyState) (tb : String) (u : PyState) :
    wrapperEpilogue s7 ≠ Outcome.sysExit tb u := by
  unfold wrapperEpilogue
  split
  · exact restoreStreams_no_sysExit _ _ _
  · simp
  · simp

theorem epilogue_globals_result (s7 : PyState) (i : Nat)
    (hbuf : nsGet s7.globals "_applepye_buf" = some (PyVal.chan (Chan.sio i))) :
    (outcomeState (wrapperEpilogue s7)).globals
      = nsSet s7.globals "result" (PyVal.str ((sioLookup s7.sios i).getD "")) := by
  simp only [wrapperEpilogue, hbuf, restoreStreams_globals]

theorem epilogue_globals_ne_result (s7 : PyState) (k : String)
    (hk : k ≠ "result") :
    nsGet (outcomeState (wrapperEpilogue s7)).globals k = nsGet s7.globals k := by
  by_cases hb : ∃ i, nsGet s7.globals "_applepye_buf" = some (PyVal.chan (Chan.sio i))
  · obtain ⟨i, hi⟩ := hb
    rw [epilogue_globals_result s7 i hi, nsGet_set_ne _ _ _ _ (Ne.symm hk)]
  · unfold wrapperEpilogue
    split
    · rename_i i heq
      exact absurd ⟨i, heq⟩ hb
    · rfl
    · rfl

theorem runWrapper_globals (O : PyOracle) (s1 : PyState) :
    (runWrapper O s1).2.globals = (outcomeState (wrapperBody O s1)).globals := by
  unfold runWrapper
  split
  · rename_i heq
    rw [heq]
    rfl
  · rename_i heq
    rw [heq, writeVal_getD_globals]
    rfl
  · rename_i heq
    rw [heq]
    rfl

theorem runWrapper_fst_of_epilogue (O : PyOracle) (s1 s7 : PyState)
    (h : wrapperBody O s1 = wrapperEpilogue s7) :
    (runWrapper O s1).1 ≠ RunStatus.exited := by
  unfold runWrapper
  rw [h]
  rcases he : wrapperEpilogue s7 with _ | _ | ⟨tb, u⟩
  · simp
  · simp
  · exact absurd he (wrapperEpilogue_no_sysExit s7 tb u)

/-- C3: the claim (never a null return, even on allocation failure) is what the
header documents, but the code violates it: when `malloc` fails inside
`_dup_str`, `applepye_execute` returns NULL, both for a null source and on the
normal path. -/
theorem C3_null_return_on_alloc_failure :
    (applepye_execute syntaxErrOracle
      { allocOk := false, unicodeOk := true, setItemOk := true, utf8Ok := true }
      Option.none initState).1 = Option.none ∧
    (applepye_execute syntaxErrOracle
      { allocOk := false, unicodeOk := true, setItemOk := true, utf8Ok := true }
      (some "pass") initState).1 = Option.none := by
  exact ⟨rfl, rfl⟩

/-- C8: when the interpreter-native string for the source cannot be built, or
cannot be bound into the global namespace, the call returns the corresponding
short fixed diagnostic string and leaves the interpreter state untouched (the
source is never executed), for any oracle, source and state. -/
theorem C8_construction_binding_failure (O : PyOracle) (cfg : CConfig)
    (code : String) (s : PyState) (halloc : cfg.allocOk = true) :
    (cfg.unicodeOk = false →
      applepye_execute O cfg (some code) s
        = (some "/* failed to create Python code string */", s)) ∧
    (cfg.unicodeOk = true → cfg.setItemOk = false →
      applepye_execute O cfg (some code) s
        = (some "/* failed to set __APPLEPYE_CODE__ */", s)) := by
  constructor
  · intro h
    simp [applepye_execute, h, dup_str, halloc]
  · intro h1 h2
    simp [applepye_execute, h1, h2, dup_str, halloc]

/-- C8 witness: with `PyUnicode_FromString` failing (resp. succeeding while
`PyDict_SetItemString` fails), the fixed diagnostics come back and the state
is unchanged. -/
theorem C8_witness :
    applepye_execute syntaxErrOracle
      { allocOk := true, unicodeOk := false, setItemOk := true, utf8Ok := true }
      (some "pass") initState
      = (some "/* failed to create Python code string */", initState) ∧
    applepye_execute syntaxErrOracle
      { allocOk := true, unicodeOk := true, setItemOk := false, utf8Ok := true }
      (some "pass") initState
      = (some "/* failed to set __APPLEPYE_CODE__ */", initState) := by
  exact ⟨(C8_construction_binding_failure syntaxErrOracle _ "pass" initState rfl).1 rfl,
    (C8_construction_binding_failure syntaxErrOracle _ "pass" initState rfl).2 rfl rfl⟩

/-- C9: lifecycle idempotence — initializing twice equals initializing once,
finalizing twice equals finalizing once, finalizing an uninitialized
interpreter is a no-op, and initializing an initialized one is a no-op. -/
theorem C9_lifecycle_idempotent :
    (∀ s : PyState, applepye_initialize ( applepye_initialize s) = applepye_initialize s) ∧
    (∀ s : PyState, applepye_finalize (applepye_finalize s) = applepye_finalize s) ∧
    (∀ s : PyState, s.initialized = false → applepye_finalize s = s) ∧
    (∀ s : PyState, s.initialized = true → applepye_initialize s = s) := by
  refine ⟨fun s => ?_, fun s => ?_, fun s h => ?_, fun s h => ?_⟩
  · by_cases h : s.initialized = false <;> simp [ applepye_initialize, h]
  · by_cases h : s.initialized = true <;> simp [applepye_finalize, h]
  · simp [applepye_finalize, h]
  · simp [ applepye_initialize, h]

/-- C9 witness: the no-op conjuncts applied at concrete states. -/
theorem C9_witness :
    applepye_finalize { initState with initialized := false }
      = { initState with initialized := false } ∧
    applepye_initialize initState = initState := by
  exact ⟨C9_lifecycle_idempotent.2.2.1 _ rfl, C9_lifecycle_idempotent.2.2.2 _ rfl⟩

/-- C7: a null source returns an owned empty string at once with the
interpreter untouched; an empty source (with Python raising `SyntaxError` on
`eval("")` and `exec("")` doing nothing) also returns an owned empty string. -/
theorem C7_null_and_empty_source (O : PyOracle) (cfg : CConfig) (s : PyState)
    (halloc : cfg.allocOk = true)
    (h1 : O.eval "" (prologue (bindCode initState "")) =
      Outcome.exn true "SyntaxError: invalid syntax" (prologue (bindCode initState "")))
    (h2 : O.exec "" (prologue (bindCode initState "")) =
      Outcome.ok () (prologue (bindCode initState ""))) :
    applepye_execute O cfg Option.none s = (some "", s) ∧
    (applepye_execute O cfgOk (some "") initState).1 = some "" := by
  constructor
  · simp [applepye_execute, dup_str, halloc]
  · simp only [applepye_execute, runWrapper, wrapperBody, nsGet_prologue_code,
      runOnVal, applepyeRun, execFallback, h1, h2, cfgOk]
    rfl

/-- C7 witness: the theorem applied to a concrete Python-faithful oracle. -/
theorem C7_witness :
    applepye_execute syntaxErrOracle cfgOk Option.none initState = (some "", initState) ∧
    (applepye_execute syntaxErrOracle cfgOk (some "") initState).1 = some "" := by
  exact C7_null_and_empty_source syntaxErrOracle cfgOk initState rfl rfl rfl

theorem nsGet_set_result_old_stdout (g : List (String × PyVal)) (v : PyVal) :
    nsGet (nsSet g "result" v) "_applepye_old_stdout"
      = nsGet g "_applepye_old_stdout" :=
  nsGet_set_ne _ _ _ _ (by decide)

theorem nsGet_set_result_old_stderr (g : List (String × PyVal)) (v : PyVal) :
    nsGet (nsSet g "result" v) "_applepye_old_stderr"
      = nsGet g "_applepye_old_stderr" :=
  nsGet_set_ne _ _ _ _ (by decide)

theorem nsGet_set_result_sys (g : List (String × PyVal)) (v : PyVal) :
    nsGet (nsSet g "result" v) "sys" = nsGet g "sys" :=
  nsGet_set_ne _ _ _ _ (by decide)

/-- C1 counterexample: two runtime faults outside the `Exception` class defeat
the claim as stated.  A `KeyboardInterrupt` raised during evaluation escapes
the wrapper handlers; `PyErr_Print` renders its traceback into the
still-redirected `StringIO`, `result` is never set, and the call returns an
owned *empty* string — no diagnostic reaches the caller.  And for
`raise SystemExit` the pending `SystemExit` makes `PyErr_Print` terminate the
host process inside `PyRun_SimpleString`: the call never returns at all. -/
theorem C1_counterexample :
    (applepye_execute kbdOracle cfgOk (some "input()") initState).1 = some ""
      ∧ (runWrapper sysExitOracle (bindCode initState "raise SystemExit")).1
          = RunStatus.exited
      ∧ (applepye_execute sysExitOracle cfgOk
          (some "raise SystemExit") initState).2.procExited = true := by
  exact ⟨by decide, by decide, by decide⟩

/-- C1 (amended): for every source whose evaluation and statement execution
raise `Exception`-class faults with a non-empty traceback, provided the source
leaves the redirection machinery intact, `applepye_execute` returns the
captured output with the diagnostic trace appended — a non-empty owned
string — and the fault never escapes. -/
theorem C1_runtime_fault_diagnostic (O : PyOracle) (code tb1 tb c : String)
    (s s' s'' : PyState)
    (h1 : O.eval code (prologue (bindCode s code)) = Outcome.exn true tb1 s')
    (h2 : O.exec code s' = Outcome.exn true tb s'')
    (htb : tb ≠ "")
    (hstderr : s''.sysStderr = PyVal.chan (Chan.sio s.nextSio))
    (hbufbind : nsGet s''.globals "_applepye_buf"
      = some (PyVal.chan (Chan.sio s.nextSio)))
    (hbufc : sioLookup s''.sios s.nextSio = some c) :
    (applepye_execute O cfgOk (some code) s).1 = some (c ++ tb)
      ∧ c ++ tb ≠ "" := by
  refine ⟨?_, str_append_ne_empty_right c tb htb⟩
  have hrun : applepyeRun O code (prologue (bindCode s code)) =
      Outcome.ok () { s'' with sios := sioWrite s''.sios s.nextSio tb } := by
    simp only [applepyeRun, h1, execFallback, h2, hstderr, writeVal]
  have hbody : wrapperBody O (bindCode s code)
      = wrapperEpilogue { s'' with sios := sioWrite s''.sios s.nextSio tb } := by
    simp only [wrapperBody, nsGet_prologue_code, runOnVal, hrun]
  have hne := runWrapper_fst_of_epilogue O (bindCode s code) _ hbody
  have hres : nsGet (runWrapper O (bindCode s code)).2.globals "result"
      = some (PyVal.str (c ++ tb)) := by
    rw [runWrapper_globals, hbody,
      epilogue_globals_result { s'' with sios := sioWrite s''.sios s.nextSio tb }
        s.nextSio hbufbind, nsGet_set_self]
    simp [sioLookup_write_self s''.sios s.nextSio tb c hbufc]
  simp only [applepye_execute, cfgOk, if_neg hne, hres, dup_str]
  simp

/-- C1 witness: an undefined name, with Python raising `NameError` in both
stages and the captured output empty before the traceback. -/
theorem C1_witness :
    (applepye_execute nameErrOracle cfgOk (some "qqq") initState).1
        = some ("" ++ "Traceback (most recent call last):\n  File <string>, line 1, in <module>\nNameError: name qqq is not defined\n")
      ∧ ("" ++ "Traceback (most recent call last):\n  File <string>, line 1, in <module>\nNameError: name qqq is not defined\n" : String) ≠ "" := by
  exact C1_runtime_fault_diagnostic nameErrOracle "qqq" _ _ "" initState _ _
    rfl rfl (by decide) rfl rfl rfl

/-- C2 counterexample: a `KeyboardInterrupt` raised during evaluation escapes
`_applepye_run` (it is not `Exception`-class), the wrapper aborts before its
two restore lines, and after the call `sys.stdout` is still the call's
`StringIO` — the channels are not restored, though the call itself returns. -/
theorem C2_counterexample :
    (applepye_execute kbdOracle cfgOk (some "input()") initState).2.sysStdout
      ≠ initState.sysStdout := by
  decide

/-- C2 (amended): whenever the wrapper body runs to completion and its restore
lines succeed — the executed source raises at most `Exception`-class faults
and leaves the saved stream bindings, the `StringIO` binding, and the global
name `sys` (still the `sys` module, through which the restore lines assign)
intact — both channels are restored to their pre-call values by the end of
the `applepye_execute` call. -/
theorem C2_streams_restored (O : PyOracle) (code : String) (s s7 : PyState)
    (i : Nat)
    (hrun : applepyeRun O code (prologue (bindCode s code)) = Outcome.ok () s7)
    (hbufbind : nsGet s7.globals "_applepye_buf" = some (PyVal.chan (Chan.sio i)))
    (hsys : nsGet s7.globals "sys" = some (PyVal.module "sys"))
    (hold1 : nsGet s7.globals "_applepye_old_stdout" = some s.sysStdout)
    (hold2 : nsGet s7.globals "_applepye_old_stderr" = some s.sysStderr) :
    (applepye_execute O cfgOk (some code) s).2.sysStdout = s.sysStdout
      ∧ (applepye_execute O cfgOk (some code) s).2.sysStderr = s.sysStderr := by
  have hbody : wrapperBody O (bindCode s code) = wrapperEpilogue s7 := by
    simp only [wrapperBody, nsGet_prologue_code, runOnVal, hrun]
  have hepi : wrapperEpilogue s7 = Outcome.ok ()
      { s7 with
        globals := nsSet s7.globals "result"
          (PyVal.str ((sioLookup s7.sios i).getD "")),
        sysStdout := s.sysStdout, sysStderr := s.sysStderr } := by
    simp only [wrapperEpilogue, hbufbind, restoreStreams,
      nsGet_set_result_old_stdout, hold1, setSysAttr, nsGet_set_result_sys,
      hsys, nsGet_set_result_old_stderr, hold2]
    simp [nsGet_set_result_old_stderr, nsGet_set_result_sys, hold2, hsys]
  have hrw : runWrapper O (bindCode s code) = (RunStatus.ok,
      { s7 with
        globals := nsSet s7.globals "result"
          (PyVal.str ((sioLookup s7.sios i).getD "")),
        sysStdout := s.sysStdout, sysStderr := s.sysStderr }) := by
    simp only [runWrapper, hbody, hepi]
  constructor
  · simp only [applepye_execute, cfgOk, hrw]
    simp
  · simp only [applepye_execute, cfgOk, hrw]
    simp

/-- C2 witness: a statement source (`eval` raises `SyntaxError`, `exec`
succeeds quietly) run from the fresh state; both channels come back to the
real process streams. -/
theorem C2_witness :
    (applepye_execute syntaxErrOracle cfgOk (some "pass") initState).2.sysStdout
        = initState.sysStdout
      ∧ (applepye_execute syntaxErrOracle cfgOk (some "pass") initState).2.sysStderr
        = initState.sysStderr := by
  exact C2_streams_restored syntaxErrOracle "pass" initState _ 0 rfl rfl rfl rfl rfl

/-- C4 counterexample: `print(1) or 2` is a well-formed expression whose
evaluation succeeds with the printable value 2, yet the call returns
`"1\n2\n"` — the output written during evaluation plus the value line — not
the textual representation of 2 followed by a newline and nothing else. -/
theorem C4_counterexample :
    (applepye_execute printingOracle cfgOk (some "print(1) or 2") initState).1
        = some "1\n2\n"
      ∧ (some "1\n2\n" : Option String) ≠ some ((PyVal.int 2).text ++ "\n") := by
  exact ⟨by decide, by decide⟩

/-- C4 (amended): for every expression whose evaluation succeeds with a
non-`None` value and writes no output of its own (and leaves the redirection
machinery intact), the call returns exactly the textual representation of the
value followed by one newline. -/
theorem C4_expression_value_output (O : PyOracle) (code : String) (v : PyVal)
    (s s' : PyState)
    (h1 : O.eval code (prologue (bindCode s code)) = Outcome.ok v s')
    (hv : v ≠ PyVal.noneVal)
    (hstdout : s'.sysStdout = PyVal.chan (Chan.sio s.nextSio))
    (hbufbind : nsGet s'.globals "_applepye_buf"
      = some (PyVal.chan (Chan.sio s.nextSio)))
    (hbufempty : sioLookup s'.sios s.nextSio = some "")
    (hold1 : ∃ u, nsGet s'.globals "_applepye_old_stdout" = some u)
    (hold2 : ∃ w, nsGet s'.globals "_applepye_old_stderr" = some w) :
    (applepye_execute O cfgOk (some code) s).1 = some (v.text ++ "\n") := by
  have hrun : applepyeRun O code (prologue (bindCode s code)) =
      Outcome.ok () { s' with sios := sioWrite s'.sios s.nextSio (v.text ++ "\n") } := by
    simp only [applepyeRun, h1, if_neg hv, hstdout, writeVal]
  have hbody : wrapperBody O (bindCode s code)
      = wrapperEpilogue { s' with sios := sioWrite s'.sios s.nextSio (v.text ++ "\n") } := by
    simp only [wrapperBody, nsGet_prologue_code, runOnVal, hrun]
  have hne := runWrapper_fst_of_epilogue O (bindCode s code) _ hbody
  have hres : nsGet (runWrapper O (bindCode s code)).2.globals "result"
      = some (PyVal.str (v.text ++ "\n")) := by
    rw [runWrapper_globals, hbody,
      epilogue_globals_result
        { s' with sios := sioWrite s'.sios s.nextSio (v.text ++ "\n") }
        s.nextSio hbufbind, nsGet_set_self]
    simp [sioLookup_write_self s'.sios s.nextSio (v.text ++ "\n") "" hbufempty]
  simp only [applepye_execute, cfgOk, if_neg hne, hres, dup_str]
  simp

/-- C4 witness: the pure expression `3 + 4`, evaluating to 7 with no output of
its own; the call returns `"7\n"`. -/
theorem C4_witness :
    (applepye_execute sevenOracle cfgOk (some "3 + 4") initState).1
      = some ((PyVal.int 7).text ++ "\n") := by
  exact C4_expression_value_output sevenOracle "3 + 4" (PyVal.int 7) initState _
    rfl (by decide) rfl rfl rfl ⟨_, rfl⟩ ⟨_, rfl⟩

/-- C5 counterexample: a source whose evaluation raises `KeyboardInterrupt`
(a fault, but not `Exception`-class).  Were the claimed fallback taken, the
`exec` stage would bind the global `ran`; after the call that name is unbound,
so the source was not executed again. -/
theorem C5_counterexample :
    nsGet (applepye_execute kbdOracle cfgOk (some "input()") initState).2.globals
      "ran" = Option.none := by
  decide

/-- C5 (amended): on any `Exception`-class fault in the evaluation stage, the
wrapper falls back to executing the same source, as statements, in the global
namespace left by the failed evaluation (so side effects of a faulting valid
expression can fire twice); in particular, when that `exec` completes in some
state, the whole run completes in that state. -/
theorem C5_eval_exec_fallback (O : PyOracle) (code tb1 : String) (s s' : PyState)
    (h1 : O.eval code (prologue (bindCode s code)) = Outcome.exn true tb1 s') :
    applepyeRun O code (prologue (bindCode s code)) = execFallback O code s'
      ∧ ∀ s'' : PyState, O.exec code s' = Outcome.ok () s'' →
          applepyeRun O code (prologue (bindCode s code)) = Outcome.ok () s'' := by
  constructor
  · simp only [applepyeRun, h1]
  · intro s'' h2
    simp only [applepyeRun, h1, execFallback, h2]

/-- C5 witness: the fallback equation at a concrete faulting source. -/
theorem C5_witness :
    applepyeRun nameErrOracle "qqq" (prologue (bindCode initState "qqq"))
      = execFallback nameErrOracle "qqq" (prologue (bindCode initState "qqq")) := by
  exact (C5_eval_exec_fallback nameErrOracle "qqq"
    "NameError: name qqq is not defined" initState _ rfl).1

/-- C6: with Python behaving in the standard way on the two snippets
(`x = 5` is a statement: `eval` raises `SyntaxError` and the `exec` fallback
binds `x`; `x + 1` is an expression evaluating to 6 once `x` is bound to 5),
executing `x = 5` and then `x + 1` returns `"6\n"`: bindings accumulate in
the single shared global namespace across calls. -/
theorem C6_state_persists (O : PyOracle)
    (h1 : ∀ t : PyState, O.eval "x = 5" t
      = Outcome.exn true "SyntaxError: invalid syntax" t)
    (h2 : ∀ t : PyState, O.exec "x = 5" t
      = Outcome.ok () { t with globals := nsSet t.globals "x" (PyVal.int 5) })
    (h3 : ∀ t : PyState, nsGet t.globals "x" = some (PyVal.int 5) →
      O.eval "x + 1" t = Outcome.ok (PyVal.int 6) t) :
    (applepye_execute O cfgOk (some "x + 1")
      (applepye_execute O cfgOk (some "x = 5") initState).2).1 = some "6\n" := by
  have e1 : (applepye_execute O cfgOk (some "x = 5") initState).2 = c6MidState := by
    simp only [applepye_execute, cfgOk, runWrapper, wrapperBody,
      nsGet_prologue_code, runOnVal, applepyeRun, execFallback, h1, h2]
    rfl
  rw [e1]
  have hx : nsGet (prologue (bindCode c6MidState "x + 1")).globals "x"
      = some (PyVal.int 5) := by decide
  have e2 := h3 _ hx
  simp only [applepye_execute, cfgOk, runWrapper, wrapperBody,
    nsGet_prologue_code, runOnVal, applepyeRun, e2]
  rfl

/-- C6 witness: the theorem applied to the concrete Python-faithful oracle for
these two snippets. -/
theorem C6_witness :
    (applepye_execute xOracle cfgOk (some "x + 1")
      (applepye_execute xOracle cfgOk (some "x = 5") initState).2).1 = some "6\n" := by
  refine C6_state_persists xOracle (fun t => rfl) (fun t => rfl) (fun t ht => ?_)
  simp [xOracle, ht]

/-- C10 counterexample: the source `del sys` unbinds the helper name `sys`
within the same call, so after this call `sys` is not bound — the helper
names do not remain bound after every call with a non-null source. -/
theorem C10_counterexample :
    nsGet (applepye_execute delSysOracle cfgOk (some "del sys") initState).2.globals
      "sys" = Option.none := by
  decide

/-- C10 (amended): on the successful C path — the wrapper run does not
terminate the process via an uncaught `SystemExit` — whenever the executed
source leaves the six wrapper helper names bound (in particular whenever it
does not unbind them), those names are still bound in the shared namespace
after the call; and the temporaries `result` and `__APPLEPYE_CODE__` —
including any binding of those names the script itself created — are always
deleted before the call returns. -/
theorem C10_namespace_pollution (O : PyOracle) (code : String) (s : PyState)
    (hnoexit : (runWrapper O (bindCode s code)).1 ≠ RunStatus.exited)
    (hsys : (nsGet (postRunState O code s).globals "sys").isSome = true)
    (hio : (nsGet (postRunState O code s).globals "io").isSome = true)
    (ho1 : (nsGet (postRunState O code s).globals "_applepye_old_stdout").isSome = true)
    (ho2 : (nsGet (postRunState O code s).globals "_applepye_old_stderr").isSome = true)
    (hbuf : (nsGet (postRunState O code s).globals "_applepye_buf").isSome = true)
    (hrunf : (nsGet (postRunState O code s).globals "_applepye_run").isSome = true) :
    (nsGet (applepye_execute O cfgOk (some code) s).2.globals "sys").isSome = true
      ∧ (nsGet (applepye_execute O cfgOk (some code) s).2.globals "io").isSome = true
      ∧ (nsGet (applepye_execute O cfgOk (some code) s).2.globals
          "_applepye_old_stdout").isSome = true
      ∧ (nsGet (applepye_execute O cfgOk (some code) s).2.globals
          "_applepye_old_stderr").isSome = true
      ∧ (nsGet (applepye_execute O cfgOk (some code) s).2.globals
          "_applepye_buf").isSome = true
      ∧ (nsGet (applepye_execute O cfgOk (some code) s).2.globals
          "_applepye_run").isSome = true
      ∧ nsGet (applepye_execute O cfgOk (some code) s).2.globals "result"
          = Option.none
      ∧ nsGet (applepye_execute O cfgOk (some code) s).2.globals "__APPLEPYE_CODE__"
          = Option.none := by
  have hg : (applepye_execute O cfgOk (some code) s).2.globals
      = nsDel (nsDel (runWrapper O (bindCode s code)).2.globals
        "__APPLEPYE_CODE__") "result" := by
    simp only [applepye_execute, cfgOk, if_neg hnoexit]
    simp
  have hW : ∀ k : String, k ≠ "result" →
      nsGet (runWrapper O (bindCode s code)).2.globals k
        = nsGet (postRunState O code s).globals k := by
    intro k hk
    rw [runWrapper_globals]
    rcases hA : applepyeRun O code (prologue (bindCode s code))
      with ⟨u, s7⟩ | ⟨b, tb, s7⟩ | ⟨tb, s7⟩
    · have hbody : wrapperBody O (bindCode s code) = wrapperEpilogue s7 := by
        simp only [wrapperBody, nsGet_prologue_code, runOnVal, hA]
      rw [hbody, epilogue_globals_ne_result s7 k hk]
      simp [postRunState, hA, outcomeState]
    · have hbody : wrapperBody O (bindCode s code) = Outcome.exn b tb s7 := by
        simp only [wrapperBody, nsGet_prologue_code, runOnVal, hA]
      rw [hbody]
      simp [postRunState, hA, outcomeState]
    · have hbody : wrapperBody O (bindCode s code) = Outcome.sysExit tb s7 := by
        simp only [wrapperBody, nsGet_prologue_code, runOnVal, hA]
      exact absurd (by simp only [runWrapper, hbody]) hnoexit
  refine ⟨?_, ?_, ?_, ?_, ?_, ?_, ?_, ?_⟩
  · rw [hg, nsGet_del_ne _ _ _ (by decide), nsGet_del_ne _ _ _ (by decide),
      hW _ (by decide)]
    exact hsys
  · rw [hg, nsGet_del_ne _ _ _ (by decide), nsGet_del_ne _ _ _ (by decide),
      hW _ (by decide)]
    exact hio
  · rw [hg, nsGet_del_ne _ _ _ (by decide), nsGet_del_ne _ _ _ (by decide),
      hW _ (by decide)]
    exact ho1
  · rw [hg, nsGet_del_ne _ _ _ (by decide), nsGet_del_ne _ _ _ (by decide),
      hW _ (by decide)]
    exact ho2
  · rw [hg, nsGet_del_ne _ _ _ (by decide), nsGet_del_ne _ _ _ (by decide),
      hW _ (by decide)]
    exact hbuf
  · rw [hg, nsGet_del_ne _ _ _ (by decide), nsGet_del_ne _ _ _ (by decide),
      hW _ (by decide)]
    exact hrunf
  · rw [hg]
    exact nsGet_del_self _ _
  · rw [hg, nsGet_del_ne _ _ _ (by decide)]
    exact nsGet_del_self _ _

/-- C10 witness: a benign statement source from the fresh state — the six
helpers stay bound and the temporaries are gone. -/
theorem C10_witness :
    (nsGet (applepye_execute syntaxErrOracle cfgOk (some "y = 1") initState).2.globals
        "sys").isSome = true
      ∧ (nsGet (applepye_execute syntaxErrOracle cfgOk (some "y = 1") initState).2.globals
          "io").isSome = true
      ∧ (nsGet (applepye_execute syntaxErrOracle cfgOk (some "y = 1") initState).2.globals
          "_applepye_old_stdout").isSome = true
      ∧ (nsGet (applepye_execute syntaxErrOracle cfgOk (some "y = 1") initState).2.globals
          "_applepye_old_stderr").isSome = true
      ∧ (nsGet (applepye_execute syntaxErrOracle cfgOk (some "y = 1") initState).2.globals
          "_applepye_buf").isSome = true
      ∧ (nsGet (applepye_execute syntaxErrOracle cfgOk (some "y = 1") initState).2.globals
          "_applepye_run").isSome = true
      ∧ nsGet (applepye_execute syntaxErrOracle cfgOk (some "y = 1") initState).2.globals
          "result" = Option.none
      ∧ nsGet (applepye_execute syntaxErrOracle cfgOk (some "y = 1") initState).2.globals
          "__APPLEPYE_CODE__" = Option.none := by
  exact C10_namespace_pollution syntaxErrOracle "y = 1" initState
    (by decide) rfl rfl rfl rfl rfl rfl

end Applepye
